import Mathlib

/-!
# Verification of the PFC Bayesian-optimization calibration loop

This file is a shallow embedding, in Lean 4, of the algorithmic core of the
PFC_Bayesian_Optimization repository:

* `source_code/loss_functions.py` — the dynamic-time-warping curve distance
  (`dtw_distance`, `_euclidean_distance`);
* `source_code/knowledge_base_manager.py` — the parameter fingerprint
  (`get_params_hash`), the persistent knowledge base
  (`save_to_knowledge_base` / `load_from_knowledge_base`) and the warm-start
  pass (`warm_start_optimizer`);
* `source_code/pfc_server02.py` — the blocking simulation worker
  (`start_blocking_server`);
* `main_optimization.py` — the failover gateway (`run_simulation`) and the
  objective evaluator (`objective_function`).

Python floats are modelled as exact reals; the numeric payloads carried over
the wire and through JSON files are modelled as rationals (ℚ), which keeps
every data-handling definition computable, while derived metric quantities
(Euclidean distances, loss values) live in ℝ.  Code that can raise an
exception observable by its caller is modelled with `Except`/`Option`;
control flow (loops, early returns, caught exceptions) is translated
branch-by-branch from the Python source.
-/

/-- One data point of a stress–strain curve: a (strain, stress) pair.  A curve
of shape (2, M) in the Python code (row 0 strain, row 1 stress, columns are
points) is modelled as a `List CurvePoint` of length M; the column `s[:, i]`
is the i-th list element.  An input whose first dimension is not 2 cannot be
expressed in this representation, mirroring the `ValueError` shape guard of
`dtw_distance`. -/
abbrev CurvePoint := ℚ × ℚ

/-- Models `_euclidean_distance` of `loss_functions.py`:
`np.linalg.norm(p1 - p2)` on two (strain, stress) points, i.e. the Euclidean
norm of the difference. -/
noncomputable def euclidean_distance (p1 p2 : CurvePoint) : ℝ :=
  Real.sqrt (((p1.1 : ℝ) - (p2.1 : ℝ)) ^ 2 + ((p1.2 : ℝ) - (p2.2 : ℝ)) ^ 2)

/-- Models the `cost_matrix` array filled by `dtw_distance` in
`loss_functions.py`.  `cost_matrix s1 s2 i j` is the value the Python code
stores at cell (i, j): cell (0,0) is the distance of the first points, the
first column and first row are accumulated monotonically, and an interior
cell adds the point distance to `min(cost[i-1,j], cost[i,j-1], cost[i-1,j-1])`
(Python's 3-argument `min`, folded left).  Out-of-range indices (never used
by `dtw_distance`) read the default point (0, 0). -/
noncomputable def cost_matrix (s1 s2 : List CurvePoint) : ℕ → ℕ → ℝ
  | 0, 0 => euclidean_distance (s1.getD 0 (0, 0)) (s2.getD 0 (0, 0))
  | i + 1, 0 =>
      cost_matrix s1 s2 i 0 + euclidean_distance (s1.getD (i + 1) (0, 0)) (s2.getD 0 (0, 0))
  | 0, j + 1 =>
      cost_matrix s1 s2 0 j + euclidean_distance (s1.getD 0 (0, 0)) (s2.getD (j + 1) (0, 0))
  | i + 1, j + 1 =>
      euclidean_distance (s1.getD (i + 1) (0, 0)) (s2.getD (j + 1) (0, 0)) +
        min (min (cost_matrix s1 s2 i (j + 1)) (cost_matrix s1 s2 (i + 1) j))
          (cost_matrix s1 s2 i j)
  termination_by i j => (i, j)

/-- Models `dtw_distance` of `loss_functions.py`.  With `M = len(s1)` and
`N = len(s2)`: if `M == 0 or N == 0` the function returns `np.inf`, modelled
as `none`; otherwise it returns `cost_matrix[-1, -1] = cost_matrix[M-1, N-1]`.
The shape-(2, ·) requirement is intrinsic to `List CurvePoint`. -/
noncomputable def dtw_distance (s1 s2 : List CurvePoint) : Option ℝ :=
  if s1.length = 0 ∨ s2.length = 0 then none
  else some (cost_matrix s1 s2 (s1.length - 1) (s2.length - 1))

theorem euclidean_distance_self (p : CurvePoint) : euclidean_distance p p = 0 := by
  simp [euclidean_distance]

theorem euclidean_distance_nonneg (p q : CurvePoint) : 0 ≤ euclidean_distance p q :=
  Real.sqrt_nonneg _

theorem cost_matrix_nonneg_aux (s1 s2 : List CurvePoint) :
    ∀ n i j, i + j ≤ n → 0 ≤ cost_matrix s1 s2 i j := by
  intro n
  induction n with
  | zero =>
      intro i j h
      obtain ⟨rfl, rfl⟩ : i = 0 ∧ j = 0 := by omega
      simpa [cost_matrix] using euclidean_distance_nonneg (s1.getD 0 (0, 0)) (s2.getD 0 (0, 0))
  | succ n ih =>
      rintro (_ | i) (_ | j) h
      · simpa [cost_matrix] using euclidean_distance_nonneg (s1.getD 0 (0, 0)) (s2.getD 0 (0, 0))
      · simp only [cost_matrix]
        exact add_nonneg (ih 0 j (by omega)) (euclidean_distance_nonneg _ _)
      · simp only [cost_matrix]
        exact add_nonneg (ih i 0 (by omega)) (euclidean_distance_nonneg _ _)
      · simp only [cost_matrix]
        refine add_nonneg (euclidean_distance_nonneg _ _) ?_
        exact le_min (le_min (ih i (j + 1) (by omega)) (ih (i + 1) j (by omega)))
          (ih i j (by omega))

theorem cost_matrix_nonneg (s1 s2 : List CurvePoint) (i j : ℕ) :
    0 ≤ cost_matrix s1 s2 i j :=
  cost_matrix_nonneg_aux s1 s2 (i + j) i j le_rfl

theorem cost_matrix_self_diag (s : List CurvePoint) : ∀ k, cost_matrix s s k k = 0 := by
  intro k
  induction k with
  | zero => simp [cost_matrix, euclidean_distance_self]
  | succ k ih =>
      have h1 : 0 ≤ cost_matrix s s k (k + 1) := cost_matrix_nonneg s s k (k + 1)
      have h2 : 0 ≤ cost_matrix s s (k + 1) k := cost_matrix_nonneg s s (k + 1) k
      simp only [cost_matrix, euclidean_distance_self, ih]
      rw [min_eq_right (le_min h1 h2), zero_add]

/-- Claim C7: for every non-empty curve S of shape (2, M), the dynamic-time-
warping distance of S with itself is zero: `dtw_distance S S = 0` (the
identity alignment along the diagonal costs nothing). -/
theorem dtw_distance_self_eq_zero (s : List CurvePoint) (h : s ≠ []) :
    dtw_distance s s = some 0 := by
  have hl : ¬s.length = 0 := by simpa [List.length_eq_zero] using h
  simp [dtw_distance, hl, cost_matrix_self_diag]

theorem dtw_distance_self_eq_zero_witness :
    dtw_distance [((0 : ℚ), (0 : ℚ)), ((1 : ℚ), (2 : ℚ))]
      [((0 : ℚ), (0 : ℚ)), ((1 : ℚ), (2 : ℚ))] = some 0 :=
  dtw_distance_self_eq_zero _ (by simp)

/-- Claim C8: for every pair of inputs of shape (2, M) and (2, N),
`dtw_distance` returns a non-negative value; when either input has zero
points it returns the positive-infinity sentinel (`np.inf`, modelled as
`none`) rather than raising an error. -/
theorem dtw_distance_nonneg_and_empty (s1 s2 : List CurvePoint) :
    (∀ v, dtw_distance s1 s2 = some v → 0 ≤ v) ∧
      ((s1 = [] ∨ s2 = []) → dtw_distance s1 s2 = none) := by
  constructor
  · intro v hv
    by_cases h : s1.length = 0 ∨ s2.length = 0
    · rw [dtw_distance, if_pos h] at hv
      exact absurd hv (by simp)
    · simp only [dtw_distance, if_neg h, Option.some.injEq] at hv
      exact hv ▸ cost_matrix_nonneg s1 s2 _ _
  · rintro (rfl | rfl) <;> simp [dtw_distance]

theorem dtw_distance_nonneg_and_empty_witness :
    dtw_distance ([] : List CurvePoint) [((0 : ℚ), (1 : ℚ))] = none ∧ (0 : ℝ) ≤ 0 :=
  ⟨(dtw_distance_nonneg_and_empty _ _).2 (Or.inl rfl),
   (dtw_distance_nonneg_and_empty [((0 : ℚ), (0 : ℚ))] [((0 : ℚ), (0 : ℚ))]).1 0
     (by simp [dtw_distance, cost_matrix, euclidean_distance_self])⟩

/-- The large-penalty sentinel: the literal `1e10` that `objective_function`
in `main_optimization.py` initializes `loss` with, and that the key-point
loss returns for degenerate inputs. -/
noncomputable def penalty_loss : ℝ := 1e10

/-- The first point of maximum stress of the non-empty curve `hd :: tl`,
i.e. the (strain, stress) pair at index `np.argmax` of the stress row
(ties resolved to the earliest index, as `np.argmax` does). -/
def peak_point (hd : CurvePoint) (tl : List CurvePoint) : CurvePoint :=
  tl.foldl (fun best p => if best.2 < p.2 then p else best) hd

/-- The maximum strain value of the non-empty curve `hd :: tl`. -/
def max_strain (hd : CurvePoint) (tl : List CurvePoint) : ℚ :=
  tl.foldl (fun m p => max m p.1) hd.1

/-- Euclidean norm of a (strain, stress) point, `‖·‖` in the key-point loss
formula. -/
noncomputable def vector_norm (p : CurvePoint) : ℝ :=
  Real.sqrt ((p.1 : ℝ) ^ 2 + (p.2 : ℝ) ^ 2)

/-- Modelled from the spec: `calculate_keypoint_loss` is imported from
`source_code.loss_functions` by both `main_optimization.py` (line 18) and
`knowledge_base_manager.py` (line 15), but its definition is absent from the
source files under `src/` (`loss_functions.py` only defines `dtw_distance`).
Per spec §4.2: for each curve locate the point of maximum stress ("peak
point") and the maximum strain; the loss is
`w_peak · (‖peak_target − peak_sim‖ / (‖peak_target‖ + ε)) +
 w_strain · (|maxStrain_target − maxStrain_sim| / (maxStrain_target + ε))`
with `ε = 1e-9`; if either curve is empty or degenerate (a maximum lookup on
empty data), it returns the large-penalty sentinel instead of propagating an
error. -/
noncomputable def calculate_keypoint_loss (s_target s_simulated : List CurvePoint)
    (w_peak_point w_max_strain : ℝ) : ℝ :=
  match s_target, s_simulated with
  | [], _ => penalty_loss
  | _, [] => penalty_loss
  | t :: ts, s :: ss =>
      let pt := peak_point t ts
      let ps := peak_point s ss
      let mt : ℝ := (max_strain t ts : ℚ)
      let ms : ℝ := (max_strain s ss : ℚ)
      w_peak_point * (euclidean_distance pt ps / (vector_norm pt + 1e-9)) +
        w_max_strain * (|mt - ms| / (mt + 1e-9))

/-- Claim C2: for every empty or degenerate input curve (one on which a
maximum lookup is undefined, i.e. the empty curve), the key-point loss
returns the large-penalty sentinel instead of propagating an error, so the
optimizer never receives an undefined score. -/
theorem calculate_keypoint_loss_empty_penalty (s_target s_simulated : List CurvePoint)
    (w1 w2 : ℝ) (h : s_target = [] ∨ s_simulated = []) :
    calculate_keypoint_loss s_target s_simulated w1 w2 = penalty_loss := by
  rcases h with rfl | rfl
  · cases s_simulated <;> rfl
  · cases s_target <;> rfl

theorem calculate_keypoint_loss_empty_penalty_witness :
    calculate_keypoint_loss [((0 : ℚ), (1 : ℚ))] [] 1 1 = penalty_loss :=
  calculate_keypoint_loss_empty_penalty _ _ _ _ (Or.inr rfl)

/-! ## Parameter fingerprint (`knowledge_base_manager.get_params_hash`)

`get_params_hash` computes `hashlib.sha256(json.dumps(params_dict,
sort_keys=True).encode('utf-8')).hexdigest()`.  SHA-256 is implemented below
over `ℕ` byte lists (32-bit words are `Nat` values truncated with `% 2^32`),
following FIPS 180-4, so the fingerprint is a genuine executable function of
the canonical serialization. -/

/-- Truncation to a 32-bit word. -/
def w32 (x : ℕ) : ℕ := x % 4294967296

/-- 32-bit right rotation by `n`. -/
def rotr32 (n x : ℕ) : ℕ := w32 (x / 2 ^ n + x % 2 ^ n * 2 ^ (32 - n))

/-- 32-bit bitwise complement (for inputs below `2^32`). -/
def bnot32 (x : ℕ) : ℕ := 4294967295 - x

def ssig0 (x : ℕ) : ℕ := rotr32 7 x ^^^ rotr32 18 x ^^^ x / 2 ^ 3

def ssig1 (x : ℕ) : ℕ := rotr32 17 x ^^^ rotr32 19 x ^^^ x / 2 ^ 10

def bsig0 (x : ℕ) : ℕ := rotr32 2 x ^^^ rotr32 13 x ^^^ rotr32 22 x

def bsig1 (x : ℕ) : ℕ := rotr32 6 x ^^^ rotr32 11 x ^^^ rotr32 25 x

def chf (x y z : ℕ) : ℕ := (x &&& y) ^^^ (bnot32 x &&& z)

def majf (x y z : ℕ) : ℕ := (x &&& y) ^^^ (x &&& z) ^^^ (y &&& z)

/-- The 64 SHA-256 round constants of FIPS 180-4 (decimal). -/
def sha256_k : List ℕ :=
  [1116352408, 1899447441, 3049323471, 3921009573, 961987163,
   1508970993, 2453635748, 2870763221, 3624381080, 310598401,
   607225278, 1426881987, 1925078388, 2162078206, 2614888103,
   3248222580, 3835390401, 4022224774, 264347078, 604807628,
   770255983, 1249150122, 1555081692, 1996064986, 2554220882,
   2821834349, 2952996808, 3210313671, 3336571891, 3584528711,
   113926993, 338241895, 666307205, 773529912, 1294757372,
   1396182291, 1695183700, 1986661051, 2177026350, 2456956037,
   2730485921, 2820302411, 3259730800, 3345764771, 3516065817,
   3600352804, 4094571909, 275423344, 430227734, 506948616,
   659060556, 883997877, 958139571, 1322822218, 1537002063,
   1747873779, 1955562222, 2024104815, 2227730452, 2361852424,
   2428436474, 2756734187, 3204031479, 3329325298]

/-- The SHA-256 initial hash state of FIPS 180-4 (decimal). -/
def sha256_h0 : List ℕ :=
  [1779033703, 3144134277, 1013904242, 2773480762,
   1359893119, 2600822924, 528734635, 1541459225]

/-- Big-endian byte decomposition of `x` into `n` bytes. -/
def to_bytes_be (n x : ℕ) : List ℕ :=
  (List.range n).map (fun i => x / 2 ^ (8 * (n - 1 - i)) % 256)

/-- SHA-256 padding: append 0x80, zero-fill to 56 mod 64, then the 8-byte
big-endian bit length. -/
def pad_message (msg : List ℕ) : List ℕ :=
  let z := (64 + 56 - (msg.length + 1) % 64) % 64
  msg ++ 0x80 :: (List.replicate z 0 ++ to_bytes_be 8 (8 * msg.length))

/-- Big-endian 32-bit words from a byte list (length a multiple of 4). -/
def bytes_to_words : List ℕ → List ℕ
  | b0 :: b1 :: b2 :: b3 :: rest =>
      (b0 * 16777216 + b1 * 65536 + b2 * 256 + b3) :: bytes_to_words rest
  | _ => []

/-- Split a byte list into 64-byte blocks. -/
def chunks64 (l : List ℕ) : List (List ℕ) :=
  if h : l = [] then [] else l.take 64 :: chunks64 (l.drop 64)
  termination_by l.length
  decreasing_by
    simp only [List.length_drop]
    have hp : 0 < l.length := List.length_pos.mpr h
    omega

/-- Extend the 16 words of one block to the 64-word message schedule. -/
def message_schedule (block : List ℕ) : Array ℕ :=
  (List.range 48).foldl
    (fun w t =>
      w.push (w32 (ssig1 (w.getD (t + 14) 0) + w.getD (t + 9) 0 +
        ssig0 (w.getD (t + 1) 0) + w.getD t 0)))
    block.toArray

/-- One SHA-256 compression over a 64-word schedule, starting from state
`h0` (8 words `[a, b, c, d, e, f, g, h]`). -/
def compress_block (h0 ws : List ℕ) : List ℕ :=
  let st := (sha256_k.zip ws).foldl
    (fun st kw =>
      match st with
      | [a, b, c, d, e, f, g, hh] =>
          let t1 := w32 (hh + bsig1 e + chf e f g + kw.1 + kw.2)
          let t2 := w32 (bsig0 a + majf a b c)
          [w32 (t1 + t2), a, b, c, w32 (d + t1), e, f, g]
      | other => other) h0
  List.zipWith (fun x y => w32 (x + y)) h0 st

/-- SHA-256 digest (32 bytes) of a byte list. -/
def sha256_bytes (msg : List ℕ) : List ℕ :=
  let blocks := chunks64 (pad_message msg)
  let hf := blocks.foldl
    (fun h b => compress_block h (message_schedule (bytes_to_words b)).toList) sha256_h0
  hf.foldr (fun w acc => to_bytes_be 4 w ++ acc) []

def hex_digit (n : ℕ) : Char := Char.ofNat (if n < 10 then 48 + n else 87 + n)

def byte_to_hex (b : ℕ) : String := String.mk [hex_digit (b / 16), hex_digit (b % 16)]

/-- `hashlib.sha256(s.encode('utf-8')).hexdigest()`. -/
def sha256_hexdigest (s : String) : String :=
  String.join ((sha256_bytes (s.toUTF8.toList.map UInt8.toNat)).map byte_to_hex)


/-- A parameter dictionary: the insertion-ordered (name, value) pairs of the
Python `params_dict`.  A Python dict cannot hold two entries with the same
name, so the interesting dictionaries are those whose key list is `Nodup`. -/
abbrev ParamsDict := List (String × ℚ)

/-- One JSON float value as serialized by `json.dumps`.  Python renders each
float via `repr` (the shortest round-trip decimal); this model renders the
exact rational as numerator and denominator.  The fingerprint facts proved
below depend only on the rendering being a fixed function of the value. -/
def render_value (q : ℚ) : String := toString q.num ++ "/" ++ toString q.den

/-- One `"key": value` item of the serialized dictionary. -/
def render_item (kv : String × ℚ) : String :=
  "\x22" ++ kv.1 ++ "\x22: " ++ render_value kv.2

/-- The key comparison used by `sort_keys=True`. -/
def le_key (a b : String × ℚ) : Bool := decide (a.1 ≤ b.1)

/-- Models `json.dumps(params_dict, sort_keys=True)`: the items are sorted
(stably) by key and serialized in that order into a brace-delimited,
comma-separated rendering. -/
def sorted_json_dumps (params_dict : ParamsDict) : String :=
  "\x7b" ++ String.intercalate ", " ((params_dict.mergeSort le_key).map render_item) ++ "\x7d"

/-- Models `get_params_hash` of `knowledge_base_manager.py`: the SHA-256 hex
digest of the UTF-8 bytes of the sorted-keys JSON serialization of the
parameter dictionary. -/
def get_params_hash (params_dict : ParamsDict) : String :=
  sha256_hexdigest (sorted_json_dumps params_dict)

theorem le_key_trans (a b c : String × ℚ) (h1 : le_key a b = true) (h2 : le_key b c = true) :
    le_key a c = true := by
  simp only [le_key, decide_eq_true_eq] at h1 h2 ⊢
  exact le_trans h1 h2

theorem le_key_total (a b : String × ℚ) : (le_key a b || le_key b a) = true := by
  simp only [le_key, Bool.or_eq_true, decide_eq_true_eq]
  exact le_total a.1 b.1

/-- Two parameter dictionaries with the same entries serialize identically
under `sort_keys=True`: the sorted item lists coincide. -/
theorem mergeSort_eq_of_perm_of_nodupkeys (p1 p2 : ParamsDict)
    (hnd : (p1.map Prod.fst).Nodup) (hperm : p1.Perm p2) :
    p1.mergeSort le_key = p2.mergeSort le_key := by
  have hperm' : (p1.mergeSort le_key).Perm (p2.mergeSort le_key) :=
    (List.mergeSort_perm p1 le_key).trans (hperm.trans (List.mergeSort_perm p2 le_key).symm)
  have hnd1 : ((p1.mergeSort le_key).map Prod.fst).Nodup :=
    (((List.mergeSort_perm p1 le_key).map Prod.fst).nodup_iff).mpr hnd
  have hnd2 : ((p2.mergeSort le_key).map Prod.fst).Nodup :=
    ((hperm'.map Prod.fst).nodup_iff).mp hnd1
  have hs1 := List.sorted_mergeSort le_key_trans le_key_total p1
  have hs2 := List.sorted_mergeSort le_key_trans le_key_total p2
  have strict : ∀ (l : ParamsDict), (l.map Prod.fst).Nodup →
      l.Pairwise (fun a b => le_key a b = true) →
      List.Sorted (fun a b : String × ℚ => a.1 < b.1) l := by
    intro l hn hp
    have hne : l.Pairwise (fun a b : String × ℚ => a.1 ≠ b.1) := List.pairwise_map.mp hn
    exact (hp.and hne).imp (fun hab =>
      lt_of_le_of_ne (by simpa [le_key] using hab.1) hab.2)
  haveI : IsAntisymm (String × ℚ) (fun a b => a.1 < b.1) :=
    ⟨fun a b h1 h2 => absurd (lt_trans h1 h2) (lt_irrefl _)⟩
  exact List.eq_of_perm_of_sorted hperm'
    (strict _ hnd1 hs1) (strict _ hnd2 hs2)

/-- Claim C6: for every two parameter dictionaries containing the same
name-to-value pairs, regardless of field insertion order, `get_params_hash`
produces the identical fingerprint digest — it depends only on the canonical
sorted-by-name encoding (and, being a pure function of that encoding, it is
stable across process restarts). -/
theorem get_params_hash_order_invariant (p1 p2 : ParamsDict)
    (hnd : (p1.map Prod.fst).Nodup) (hperm : p1.Perm p2) :
    get_params_hash p1 = get_params_hash p2 := by
  unfold get_params_hash sorted_json_dumps
  rw [mergeSort_eq_of_perm_of_nodupkeys p1 p2 hnd hperm]

theorem get_params_hash_order_invariant_witness :
    get_params_hash [("kratio", (2 : ℚ)), ("emod", (1 : ℚ))] =
      get_params_hash [("emod", (1 : ℚ)), ("kratio", (2 : ℚ))] :=
  get_params_hash_order_invariant _ _ (by decide) (by decide)

/-! ## Knowledge base (`knowledge_base_manager.py`) and curve DataFrames -/

/-- Models the pandas DataFrame with the two columns `Strain` and `Stress`
that the gateway, cache and evaluator pass around.  Construction sites in
the code (`pd.DataFrame(json.loads(data))`,
`pd.DataFrame({'Strain': ..., 'Stress': ...})`) always supply two
equal-length columns; a payload that would make construction raise is
modelled as a decode failure at that site. -/
structure SimDF where
  strain : List ℚ
  stress : List ℚ
  deriving DecidableEq

/-- `sim_df.empty`: the DataFrame has no rows. -/
def SimDF.isEmpty (df : SimDF) : Bool := df.strain.isEmpty

/-- `sim_df.shape[0]`: the number of rows. -/
def SimDF.shape0 (df : SimDF) : ℕ := df.strain.length

/-- `sim_df[['Strain', 'Stress']].values.T`: the shape-(2, M) array, i.e.
the list of (strain, stress) points. -/
def SimDF.toPoints (df : SimDF) : List CurvePoint := df.strain.zip df.stress

/-- One persisted knowledge-base record, as `save_to_knowledge_base` writes
it: the parameter dictionary plus the Strain and Stress lists. -/
structure KBRecord where
  parameters : ParamsDict
  strain : List ℚ
  stress : List ℚ
  deriving DecidableEq

/-- The content of one knowledge-base file as a reader sees it: `none`
models a file whose payload `json.load` cannot parse (the call raises).
Files written by `save_to_knowledge_base` are always well-formed. -/
abbrev KBFile := Option KBRecord

/-- The knowledge-base directory: fingerprint hex digest → file content.
Writing to an existing name replaces the file; the model prepends the new
entry and `List.lookup` returns the first (most recent) match. -/
abbrev KnowledgeBase := List (String × KBFile)

/-- Exceptions that knowledge-base reads can raise: `json.load` failing on a
corrupt file, or `params_dict[name]` failing on a missing field. -/
inductive KBError where
  | jsonDecodeError
  | keyError
  deriving DecidableEq

/-- Models `save_to_knowledge_base` of `knowledge_base_manager.py`: computes
the fingerprint and writes `{'parameters': ..., 'strain': ..., 'stress': ...}`
to the file named by the digest (overwriting any previous content). -/
def save_to_knowledge_base (params_dict : ParamsDict) (sim_df : SimDF)
    (kb : KnowledgeBase) : KnowledgeBase :=
  (get_params_hash params_dict, some ⟨params_dict, sim_df.strain, sim_df.stress⟩) :: kb

/-- Models `load_from_knowledge_base` of `knowledge_base_manager.py`: if no
file named by the fingerprint exists, returns `None` (`.ok none`); if the
file exists but `json.load` raises, the exception propagates (`.error`);
otherwise rebuilds the DataFrame from the stored strain and stress lists. -/
def load_from_knowledge_base (params_dict : ParamsDict) (kb : KnowledgeBase) :
    Except KBError (Option SimDF) :=
  match kb.lookup (get_params_hash params_dict) with
  | none => .ok none
  | some none => .error .jsonDecodeError
  | some (some record) => .ok (some ⟨record.strain, record.stress⟩)

/-- The six-field search space `PARAMETER_SPACE` of `main_optimization.py`:
name, lower bound, upper bound. -/
def PARAMETER_SPACE : List (String × ℚ × ℚ) :=
  [("emod", 1000000000, 50000000000), ("kratio", 1, 5),
   ("pb_emod", 5000000000, 100000000000), ("pb_fric", mkRat 3 10, 1),
   ("pb_coh", 10000000, 200000000), ("pb_ten", 10000000, 200000000)]

/-- One search-space field is present in the dictionary with a value inside
its closed interval. -/
def in_bounds (p : ParamsDict) (nlh : String × ℚ × ℚ) : Bool :=
  match p.lookup nlh.1 with
  | some v => decide (nlh.2.1 ≤ v ∧ v ≤ nlh.2.2)
  | none => false

/-- A valid ParameterSet: every declared field present, within bounds. -/
abbrev valid_params (p : ParamsDict) : Prop := PARAMETER_SPACE.all (in_bounds p) = true

/-- Claim C5: knowledge-store round-trip — for every valid ParameterSet `p`
and non-empty curve `c`, saving `(p, c)` with `save_to_knowledge_base` and
then loading with `load_from_knowledge_base p` returns a curve equal to `c`
(the same Strain and Stress sequences). -/
theorem knowledge_base_round_trip (kb : KnowledgeBase) (p : ParamsDict) (c : SimDF)
    (hval : valid_params p) (hne : c.strain ≠ []) :
    load_from_knowledge_base p (save_to_knowledge_base p c kb) = .ok (some c) := by
  unfold load_from_knowledge_base save_to_knowledge_base
  rw [List.lookup_cons_self]

theorem knowledge_base_round_trip_witness :
    load_from_knowledge_base
        [("pb_ten", (50000000 : ℚ)), ("emod", 10000000000), ("kratio", 2),
         ("pb_emod", 50000000000), ("pb_fric", mkRat 1 2), ("pb_coh", 50000000)]
        (save_to_knowledge_base
          [("pb_ten", (50000000 : ℚ)), ("emod", 10000000000), ("kratio", 2),
           ("pb_emod", 50000000000), ("pb_fric", mkRat 1 2), ("pb_coh", 50000000)]
          ⟨[0, 1, 2], [0, 5, 9]⟩ []) = .ok (some ⟨[0, 1, 2], [0, 5, 9]⟩) :=
  knowledge_base_round_trip _ _ _ (by decide) (by decide)

/-- Models the `[params_dict[name] for name in param_names]` comprehension
of `warm_start_optimizer`: looks the fields up left to right and fails (the
comprehension raises `KeyError`) at the first missing one. -/
def extract_params (param_names : List String) (pd : ParamsDict) : Option (List ℚ) :=
  match param_names with
  | [] => some []
  | n :: ns =>
      match pd.lookup n, extract_params ns pd with
      | some v, some vs => some (v :: vs)
      | _, _ => none

/-- Models `warm_start_optimizer` of `knowledge_base_manager.py`, applied to
the knowledge-base directory listing (one `KBFile` per `.json` file).  For
each file it runs `json.load` (raises on a corrupt file: `none` here), reads
`params_dict[name]` for every search-space name (raises `KeyError` when a
field is missing), rebuilds the curve, scores it with
`calculate_keypoint_loss` against the target, and appends to `(x0, y0)`.
There is no per-file exception handler in the source, so any failure aborts
the whole pass: the `Except.error` propagates and no later file is visited.
An empty listing returns two empty lists. -/
noncomputable def warm_start_optimizer (param_names : List String)
    (s_target : List CurvePoint) (w_peak_point w_max_strain : ℝ) :
    List KBFile → Except KBError (List (List ℚ) × List ℝ)
  | [] => .ok ([], [])
  | none :: _ => .error .jsonDecodeError
  | some record :: rest =>
      match extract_params param_names record.parameters with
      | none => .error .keyError
      | some params_list =>
          let sim_curve : SimDF := ⟨record.strain, record.stress⟩
          let loss := calculate_keypoint_loss s_target sim_curve.toPoints
            w_peak_point w_max_strain
          match warm_start_optimizer param_names s_target w_peak_point w_max_strain rest with
          | .error e => .error e
          | .ok (x0, y0) => .ok (params_list :: x0, loss :: y0)

/-- A knowledge-base file on which the warm-start pass must fail: either the
payload does not parse, or a required parameter field is missing. -/
def bad_kb_file (param_names : List String) : KBFile → Prop
  | none => True
  | some record => extract_params param_names record.parameters = none

/-- Counterexample to claim C4 as stated: a directory holding one malformed
record followed by one well-formed record makes `warm_start_optimizer` raise
(abort the whole pass) — the malformed record is not skipped, although the
same store without it would succeed. -/
theorem warm_start_no_skip_counterexample :
    warm_start_optimizer ["emod"] [((0 : ℚ), (0 : ℚ))] 1 1
        [none, some ⟨[("emod", 2)], [0], [1]⟩] = .error .jsonDecodeError ∧
      warm_start_optimizer ["emod"] [((0 : ℚ), (0 : ℚ))] 1 1
          [some ⟨[("emod", 2)], [0], [1]⟩] =
        .ok ([[2]],
          [calculate_keypoint_loss [((0 : ℚ), (0 : ℚ))] [((0 : ℚ), (1 : ℚ))] 1 1]) :=
  ⟨rfl, rfl⟩

/-- Claim C4, amended to what the code does: when the warm-start pass meets
a malformed persisted record (unparsable payload or missing parameter
fields), the exception propagates and the whole pass aborts — the record is
not skipped and the remaining records are not processed. -/
theorem warm_start_malformed_aborts (param_names : List String)
    (s_target : List CurvePoint) (wp ws : ℝ) (files : List KBFile)
    (h : ∃ f ∈ files, bad_kb_file param_names f) :
    ∃ e, warm_start_optimizer param_names s_target wp ws files = .error e := by
  induction files with
  | nil =>
      rcases h with ⟨f, hf, _⟩
      cases hf
  | cons f rest ih =>
      cases f with
      | none => exact ⟨.jsonDecodeError, rfl⟩
      | some record =>
          cases hm : extract_params param_names record.parameters with
          | none => exact ⟨.keyError, by simp [warm_start_optimizer, hm]⟩
          | some xs =>
              rcases h with ⟨g, hg, hbad⟩
              rcases List.mem_cons.mp hg with rfl | hgrest
              · exact absurd hbad (by simp [bad_kb_file, hm])
              · obtain ⟨e, he⟩ := ih ⟨g, hgrest, hbad⟩
                exact ⟨e, by simp [warm_start_optimizer, hm, he]⟩

theorem warm_start_malformed_aborts_witness :
    ∃ e, warm_start_optimizer ["emod"] [((0 : ℚ), (0 : ℚ))] 1 1 [none] = .error e :=
  warm_start_malformed_aborts _ _ _ _ _ ⟨none, by simp, trivial⟩

/-! ## Simulation worker (`pfc_server02.py`) -/

/-- The observable events of one accepted worker connection, in order. -/
inductive WEvent where
  | ackSent (bytes : String)
  | paramsDecoded
  | simulationRan
  | resultSent
  deriving DecidableEq

/-- One incoming connection as the worker observes it: `none` models a
connection that closes without delivering data (`conn.recv` returns empty
and the loop continues); `some none` a non-empty payload that is not valid
JSON (`json.loads` raises); `some (some params)` a payload that decodes to
the parameter dictionary `params`. -/
abbrev WRequest := Option (Option ParamsDict)

/-- Models the per-connection body of `start_blocking_server` in
`pfc_server02.py`: returns the connection's event trace and `true` when the
body completed normally (the accept loop continues), `false` when an
uncaught exception escaped it.  On a non-empty payload the code first sends
the literal bytes ACK_RECEIVED, then decodes (an invalid payload raises
here, after the acknowledgment), then runs `_run_single_simulation`, then
sends the result payload. -/
def handle_connection : WRequest → List WEvent × Bool
  | none => ([], true)
  | some none => ([.ackSent "ACK_RECEIVED"], false)
  | some (some _params) =>
      ([.ackSent "ACK_RECEIVED", .paramsDecoded, .simulationRan, .resultSent], true)

/-- Models the `while True` accept loop of `start_blocking_server` over a
finite schedule of incoming connections: the per-connection traces in order,
and `true` iff an exception escaped the loop — in which case the `finally:`
block closes the server socket, the exception propagates, and the worker
serves none of the remaining connections. -/
def start_blocking_server : List WRequest → List (List WEvent) × Bool
  | [] => ([], false)
  | r :: rs =>
      let (evs, ok) := handle_connection r
      if ok then
        let rest := start_blocking_server rs
        (evs :: rest.1, rest.2)
      else ([evs], true)

/-- Claim C9: for every accepted connection delivering a non-empty request
payload, the worker sends the exact literal byte sequence ACK_RECEIVED
before it decodes the parameters or invokes the simulation (the
acknowledgment is the first event of the trace), and it sends the result
payload only after the simulation completes (for a decodable payload the
trace is exactly acknowledgment, decode, simulation, result, in that
order). -/
theorem worker_ack_before_simulation (payload : Option ParamsDict) :
    ((handle_connection (some payload)).1.head? = some (.ackSent "ACK_RECEIVED")) ∧
      (∀ params, payload = some params →
        (handle_connection (some payload)).1 =
          [.ackSent "ACK_RECEIVED", .paramsDecoded, .simulationRan, .resultSent]) := by
  cases payload with
  | none => exact ⟨rfl, fun params h => by cases h⟩
  | some p => exact ⟨rfl, fun params _ => rfl⟩

theorem worker_ack_before_simulation_witness :
    (handle_connection (some (some [("emod", (2 : ℚ))]))).1 =
      [.ackSent "ACK_RECEIVED", .paramsDecoded, .simulationRan, .resultSent] :=
  (worker_ack_before_simulation (some [("emod", 2)])).2 _ rfl

/-- Claim C10: if a client sends a request payload that is not valid JSON,
the worker still sends the ACK_RECEIVED acknowledgment, then the decoding
error escapes the accept loop uncaught, the server socket is closed (the
loop result is the crash flag `true`) and the worker serves none of the
subsequent connections: whatever follows in the schedule, the only trace
produced is the single acknowledgment of the poisoned connection. -/
theorem worker_crashes_on_invalid_json (rs : List WRequest) :
    start_blocking_server (some none :: rs) = ([[.ackSent "ACK_RECEIVED"]], true) := rfl

/-! ## Gateway and objective evaluator (`main_optimization.py`) -/

/-- What one endpoint attempt in `run_simulation`'s failover loop yields:
`failure` models any socket exception (connect timeout, refused connection,
send/recv error — caught by the per-endpoint `except` and logged);
`response ack payload` models a completed exchange: the acknowledgment
bytes received, then the EOF-terminated result payload, where `none` stands
for a payload on which `json.loads` or the DataFrame construction raises
(also caught by the per-endpoint handler). -/
inductive EndpointOutcome where
  | failure
  | response (ack : String) (payload : Option SimDF)

/-- Models the `for host, port in SERVER_LIST` failover loop of
`run_simulation` after a cache miss.  A socket or decode exception advances
to the next endpoint; an acknowledgment other than ACK_RECEIVED falls
through the `if` with no `return` and likewise advances the loop.  On an
acknowledged, well-formed reply the DataFrame is returned — saved to the
knowledge base first iff it is non-empty.  When every endpoint has been
tried the loop ends and the empty `pd.DataFrame()` is returned. -/
def try_servers (params_dict : ParamsDict) (kb : KnowledgeBase) :
    List EndpointOutcome → SimDF × KnowledgeBase
  | [] => (⟨[], []⟩, kb)
  | .failure :: rest => try_servers params_dict kb rest
  | .response ack payload :: rest =>
      if ack = "ACK_RECEIVED" then
        match payload with
        | none => try_servers params_dict kb rest
        | some sim_df =>
            if sim_df.isEmpty then (sim_df, kb)
            else (sim_df, save_to_knowledge_base params_dict sim_df kb)
      else try_servers params_dict kb rest

/-- Models `run_simulation` of `main_optimization.py`: first consults the
knowledge base (a corrupt cached file makes `json.load` raise out of the
function, hence `.error`); on a hit returns the cached DataFrame without
touching the network; on a miss runs the failover loop.  The function has
no "all workers unreachable" branch: exhausting the endpoint list returns
the empty DataFrame normally (`.ok`). -/
def run_simulation (params_dict : ParamsDict) (kb : KnowledgeBase)
    (servers : List EndpointOutcome) : Except KBError (SimDF × KnowledgeBase) :=
  match load_from_knowledge_base params_dict kb with
  | .error e => .error e
  | .ok (some sim_df) => .ok (sim_df, kb)
  | .ok none => .ok (try_servers params_dict kb servers)

/-- Models the `objective_function` closure of `main_optimization.py`.
`loss` starts at the sentinel `1e10`; an exception escaping
`run_simulation` is caught by the enclosing `try` and the sentinel is
returned; an empty or fewer-than-5-row DataFrame returns the sentinel;
otherwise the key-point loss of the simulated curve against the captured
target is returned.  The pair also carries the knowledge base as updated by
the call (unchanged when the cache load raised). -/
noncomputable def objective_function (s_target : List CurvePoint)
    (w_peak_point w_max_strain : ℝ) (params_dict : ParamsDict)
    (kb : KnowledgeBase) (servers : List EndpointOutcome) : ℝ × KnowledgeBase :=
  match run_simulation params_dict kb servers with
  | .error _ => (penalty_loss, kb)
  | .ok (sim_df, kb2) =>
      if sim_df.isEmpty ∨ sim_df.shape0 < 5 then (penalty_loss, kb2)
      else (calculate_keypoint_loss s_target sim_df.toPoints w_peak_point w_max_strain, kb2)

/-- An endpoint attempt that yields no curve: a socket failure, wrong
acknowledgment bytes, or an undecodable result payload. -/
def endpoint_failing : EndpointOutcome → Prop
  | .failure => True
  | .response ack payload => ack ≠ "ACK_RECEIVED" ∨ payload = none

/-- The failover loop with every endpoint failing returns the empty
DataFrame and leaves the knowledge base untouched. -/
theorem try_servers_all_failing (params_dict : ParamsDict) (kb : KnowledgeBase)
    (servers : List EndpointOutcome) (h : ∀ s ∈ servers, endpoint_failing s) :
    try_servers params_dict kb servers = (⟨[], []⟩, kb) := by
  induction servers with
  | nil => rfl
  | cons s rest ih =>
      have hrest : ∀ x ∈ rest, endpoint_failing x :=
        fun x hx => h x (List.mem_cons_of_mem _ hx)
      cases s with
      | failure => simpa only [try_servers] using ih hrest
      | response ack payload =>
          have hs : ack ≠ "ACK_RECEIVED" ∨ payload = none := h _ (List.mem_cons_self _ _)
          rcases hs with hack | rfl
          · simpa only [try_servers, if_neg hack] using ih hrest
          · by_cases hack : ack = "ACK_RECEIVED"
            · simpa only [try_servers, if_pos hack] using ih hrest
            · simpa only [try_servers, if_neg hack] using ih hrest

/-- The failover loop skips a failing prefix and serves the first
acknowledged well-formed reply, saving the DataFrame iff non-empty. -/
theorem try_servers_first_success (params_dict : ParamsDict) (kb : KnowledgeBase)
    (bad rest : List EndpointOutcome) (sim_df : SimDF)
    (hbad : ∀ s ∈ bad, endpoint_failing s) :
    try_servers params_dict kb (bad ++ .response "ACK_RECEIVED" (some sim_df) :: rest) =
      (sim_df, if sim_df.isEmpty then kb
        else save_to_knowledge_base params_dict sim_df kb) := by
  induction bad with
  | nil =>
      simp only [List.nil_append, try_servers, if_pos rfl]
      by_cases h : sim_df.isEmpty <;> simp [h]
  | cons s bs ih =>
      have hs := hbad s (List.mem_cons_self s _)
      have hrest : ∀ x ∈ bs, endpoint_failing x :=
        fun x hx => hbad x (List.mem_cons_of_mem _ hx)
      cases s with
      | failure => simpa only [List.cons_append, try_servers] using ih hrest
      | response ack payload =>
          rcases hs with hack | rfl
          · simpa only [List.cons_append, try_servers, if_neg hack] using ih hrest
          · by_cases hack : ack = "ACK_RECEIVED"
            · simpa only [List.cons_append, try_servers, if_pos hack] using ih hrest
            · simpa only [List.cons_append, try_servers, if_neg hack] using ih hrest

/-- Counterexample to claim C1 as stated: with an empty knowledge base and
every configured endpoint failing, `run_simulation` raises nothing — it
returns the empty DataFrame normally — and `objective_function` converts
the total failure into the penalty score `1e10` and continues, leaving the
knowledge base unchanged.  No "all workers unreachable" condition exists in
the code. -/
theorem all_workers_unreachable_counterexample :
    (¬ ∃ e, run_simulation [("emod", (2 : ℚ))] [] [.failure] = .error e) ∧
      objective_function [((0 : ℚ), (0 : ℚ))] 1 1 [("emod", (2 : ℚ))] [] [.failure] =
        (penalty_loss, []) := by
  refine ⟨?_, rfl⟩
  rintro ⟨e, he⟩
  exact Except.noConfusion
    (show Except.ok ((⟨[], []⟩ : SimDF), ([] : KnowledgeBase)) = Except.error e from he)

/-- Claim C1, amended to what the code does: on a cache miss, if every
configured worker endpoint fails, `run_simulation` returns the empty
DataFrame normally (it raises no fatal condition), and `objective_function`
converts the total failure into the penalty sentinel `1e10` and continues
the run with the knowledge base unchanged. -/
theorem all_workers_unreachable_amended (s_target : List CurvePoint)
    (wp ws : ℝ) (params_dict : ParamsDict) (kb : KnowledgeBase)
    (servers : List EndpointOutcome)
    (hmiss : kb.lookup (get_params_hash params_dict) = none)
    (hfail : ∀ s ∈ servers, endpoint_failing s) :
    run_simulation params_dict kb servers = .ok (⟨[], []⟩, kb) ∧
      objective_function s_target wp ws params_dict kb servers = (penalty_loss, kb) := by
  have hload : load_from_knowledge_base params_dict kb = .ok none := by
    unfold load_from_knowledge_base
    rw [hmiss]
  have hrun : run_simulation params_dict kb servers = .ok (⟨[], []⟩, kb) := by
    unfold run_simulation
    rw [hload]
    show Except.ok (try_servers params_dict kb servers) = _
    rw [try_servers_all_failing params_dict kb servers hfail]
  refine ⟨hrun, ?_⟩
  unfold objective_function
  rw [hrun]
  show (if (⟨[], []⟩ : SimDF).isEmpty ∨ (⟨[], []⟩ : SimDF).shape0 < 5
    then (penalty_loss, kb)
    else (calculate_keypoint_loss s_target (SimDF.toPoints ⟨[], []⟩) wp ws, kb)) =
      (penalty_loss, kb)
  simp [SimDF.isEmpty]

theorem all_workers_unreachable_amended_witness :
    run_simulation [("emod", (2 : ℚ))] [] [.failure, .response "NOPE" none] =
        .ok (⟨[], []⟩, []) ∧
      objective_function [((0 : ℚ), (0 : ℚ))] 1 1 [("emod", (2 : ℚ))] []
          [.failure, .response "NOPE" none] = (penalty_loss, []) :=
  all_workers_unreachable_amended _ _ _ _ _ _ rfl (by
    intro s hs
    simp only [List.mem_cons, List.not_mem_nil, or_false] at hs
    rcases hs with rfl | rfl
    · trivial
    · exact Or.inr rfl)

/-- Counterexample to claim C3 as stated: a simulated curve with 3 samples
(non-empty but fewer than 5) makes `objective_function` return the penalty
sentinel, yet the curve IS persisted into the knowledge store —
`run_simulation` saves every non-empty DataFrame before the evaluator's
length check rejects it, as the resulting store and the successful lookup
show. -/
theorem short_curve_persisted_counterexample :
    objective_function [((0 : ℚ), (0 : ℚ))] 1 1 [("emod", (2 : ℚ))] []
        [.response "ACK_RECEIVED" (some ⟨[0, 1, 2], [3, 4, 5]⟩)] =
      (penalty_loss,
        [(get_params_hash [("emod", (2 : ℚ))],
          some ⟨[("emod", (2 : ℚ))], [0, 1, 2], [3, 4, 5]⟩)]) ∧
      (List.lookup (get_params_hash [("emod", (2 : ℚ))])
        [(get_params_hash [("emod", (2 : ℚ))],
          some (⟨[("emod", (2 : ℚ))], [0, 1, 2], [3, 4, 5]⟩ : KBRecord))]).isSome = true := by
  refine ⟨rfl, ?_⟩
  rw [List.lookup_cons_self]
  rfl

/-- Claim C3, amended to what the code does: whenever the simulated curve
(served after a failing prefix of endpoints, on a cache miss) is empty or
has fewer than 5 samples, the objective evaluator returns the large-penalty
sentinel `1e10`; an empty curve is not persisted, but a non-empty curve
with fewer than 5 samples has already been persisted into the knowledge
store by `run_simulation`. -/
theorem short_curve_penalty_amended (s_target : List CurvePoint)
    (wp ws : ℝ) (params_dict : ParamsDict) (kb : KnowledgeBase)
    (bad rest : List EndpointOutcome) (sim_df : SimDF)
    (hmiss : kb.lookup (get_params_hash params_dict) = none)
    (hbad : ∀ s ∈ bad, endpoint_failing s)
    (hshort : sim_df.shape0 < 5) :
    objective_function s_target wp ws params_dict kb
        (bad ++ .response "ACK_RECEIVED" (some sim_df) :: rest) =
      (penalty_loss,
        if sim_df.isEmpty then kb
        else save_to_knowledge_base params_dict sim_df kb) := by
  have hload : load_from_knowledge_base params_dict kb = .ok none := by
    unfold load_from_knowledge_base
    rw [hmiss]
  have hrun : run_simulation params_dict kb
      (bad ++ .response "ACK_RECEIVED" (some sim_df) :: rest) =
        .ok (sim_df, if sim_df.isEmpty then kb
          else save_to_knowledge_base params_dict sim_df kb) := by
    unfold run_simulation
    rw [hload]
    show Except.ok (try_servers params_dict kb _) = _
    rw [try_servers_first_success params_dict kb bad rest sim_df hbad]
  unfold objective_function
  rw [hrun]
  show (if sim_df.isEmpty ∨ sim_df.shape0 < 5 then _ else _) = _
  rw [if_pos (Or.inr hshort)]

theorem short_curve_penalty_amended_witness :
    objective_function [((0 : ℚ), (0 : ℚ))] 1 1 [("emod", (2 : ℚ))] []
        [.failure, .response "ACK_RECEIVED" (some ⟨[0, 1, 2], [3, 4, 5]⟩)] =
      (penalty_loss,
        if (⟨[0, 1, 2], [3, 4, 5]⟩ : SimDF).isEmpty then []
        else save_to_knowledge_base [("emod", (2 : ℚ))] ⟨[0, 1, 2], [3, 4, 5]⟩ []) :=
  short_curve_penalty_amended _ _ _ _ _ [.failure] [] _ rfl
    (by
      intro s hs
      simp only [List.mem_cons, List.not_mem_nil, or_false] at hs
      subst hs
      trivial)
    (by decide)
